import Mathlib

/-!
Shallow embedding of the FinScope workflow-session orchestrator
(React frontend: WorkflowContext provider, SECSearchPage, UploadPage,
AnalysisPage).  Pure data is modelled by structures; each event handler
is modelled as a function from the component state (plus the Gateway
call result, where the handler awaits one) to the next state.  JS
truthiness on possibly-absent strings is modelled by `strTruthy` over
`Option String`; absent object fields are `Option` fields.
-/

namespace FinScope

/-- JS truthiness of a string-or-nullish value: null/undefined and the
empty string are falsy. -/
def strTruthy : Option String → Bool
  | none => false
  | some s => !s.isEmpty

/-- The `x || ""` defaulting pattern used throughout the source. -/
def optStr (o : Option String) : String := o.getD ""

/-- JS `String.prototype.trim`: strip whitespace from both ends,
modelled structurally over the character list. -/
def jsTrim (s : String) : String :=
  String.mk
    ((((s.data.dropWhile Char.isWhitespace).reverse.dropWhile Char.isWhitespace).reverse))

/-- An SEC filing as returned by the get-filings endpoint. -/
structure Filing where
  accession_number : String
  form_type : String
  filing_date : String
deriving DecidableEq, Repr

/-- A company suggestion as returned by search-company. -/
structure Company where
  ticker : String
  company_name : String
deriving DecidableEq, Repr

/-- The SEC workflow data committed by SECSearchPage:
`{ ticker, company_name, selected_filing }`. -/
structure SecWorkflowData where
  ticker : String
  company_name : String
  selected_filing : Option Filing
deriving DecidableEq, Repr

/-- The selection snapshot kept alongside the workflow data:
`{ ticker, company_name, selected_filing }`. -/
structure SelectionMeta where
  ticker : String
  company_name : String
  selected_filing : Option Filing
deriving DecidableEq, Repr

/-- Chat message roles. -/
inductive Role where
  | user
  | assistant
deriving DecidableEq, Repr

/-- A chat transcript entry as built by AnalysisPage.  User messages
carry no references and no error flag; assistant replies carry the
references string; synthetic error entries set `isError`. -/
structure ChatMessage where
  role : Role
  content : String
  references : Option String := none
  isError : Bool := false
  timestamp : String
deriving DecidableEq, Repr

/-- A news article from the Gateway response. -/
structure Article where
  title : String
  url : String
deriving DecidableEq, Repr

/-- The `analysisData` record kept in WorkflowContext:
`{ sessionId, executiveSummary, newsArticles, chatMessages, sourceType }`. -/
structure AnalysisData where
  sessionId : String
  executiveSummary : String
  newsArticles : List Article
  chatMessages : List ChatMessage
  sourceType : Option String := none
deriving DecidableEq, Repr

/-- Upload draft metadata `{ companyName, docTitle, docType, year }`;
fields are optional because the form fills them one at a time. -/
structure UploadMeta where
  companyName : Option String := none
  docTitle : Option String := none
  docType : Option String := none
  year : Option Nat := none
deriving DecidableEq, Repr

/-- A browser File object, as far as the source inspects it: its
`name` and byte `size`. -/
structure JsFile where
  name : String
  size : Nat
deriving DecidableEq, Repr

/-- The `uploadAnalysisData` record: the Gateway response for an upload
session, extended by UploadPage with the submitted metadata snapshot
and the submitted file name (the file size is not retained). -/
structure UploadAnalysisData where
  sessionId : String
  executiveSummary : Option String := none
  newsArticles : Option (List Article) := none
  submittedMetadata : Option UploadMeta := none
  submittedFileName : Option String := none
deriving DecidableEq, Repr

/-! ## UploadPage file selection (handleFileSelect) -/

/-- The suffix of the character list starting at its last dot, when a
dot occurs; `none` otherwise.  Mirrors `lastIndexOf` plus `substring`. -/
def afterLastDot : List Char → Option (List Char)
  | [] => none
  | c :: rest =>
    match afterLastDot rest with
    | some s => some s
    | none => if c = '.' then some (c :: rest) else none

/-- `file.name.toLowerCase()` followed by
`fileName.substring(fileName.lastIndexOf("."))`; when `lastIndexOf`
returns -1, `substring(-1)` clamps to 0 and yields the whole name. -/
def fileExtension (s : String) : List Char :=
  let fileName := s.data.map Char.toLower
  (afterLastDot fileName).getD fileName

/-- The allowed extensions list from handleFileSelect. -/
def allowedExtensions : List (List Char) := [".pdf".data, ".txt".data]

/-- 10MB = 10 * 1024 * 1024 bytes. -/
def maxUploadSize : Nat := 10 * 1024 * 1024

/-- The two distinct error messages handleFileSelect can set; the
oversize one interpolates the rejected size. -/
inductive FileError where
  | invalidType
  | tooLarge (size : Nat)
deriving DecidableEq, Repr

/-- The slice of UploadPage state that handleFileSelect touches. -/
structure FileSelectState where
  selectedUploadFile : Option JsFile := none
  fileError : Option FileError := none
deriving DecidableEq, Repr

/-- UploadPage.handleFileSelect: early return on a nullish file;
otherwise clear the previous error, reject a bad extension or an
oversize file (resetting the selected file to null), else select. -/
def handleFileSelect (st : FileSelectState) (file : Option JsFile) : FileSelectState :=
  match file with
  | none => st
  | some f =>
    let st1 : FileSelectState := { st with fileError := none }
    let ext := fileExtension f.name
    if !(allowedExtensions.contains ext) then
      { st1 with fileError := some .invalidType, selectedUploadFile := none }
    else if f.size > maxUploadSize then
      { st1 with fileError := some (.tooLarge f.size), selectedUploadFile := none }
    else
      { st1 with selectedUploadFile := some f }

/-- C10: for every candidate file, selection succeeds exactly when the
case-insensitive extension is .pdf or .txt and the size is at most
10 * 1024 * 1024 bytes; otherwise the selected file is reset to null
and an error message is set, so an invalid file never becomes part of
a pending upload selection. -/
theorem upload_file_validation (st : FileSelectState) (f : JsFile) :
    ((handleFileSelect st (some f)).selectedUploadFile = some f
      ↔ (fileExtension f.name ∈ allowedExtensions ∧ f.size ≤ maxUploadSize))
    ∧ ((handleFileSelect st (some f)).fileError.isSome
      ↔ ¬(fileExtension f.name ∈ allowedExtensions ∧ f.size ≤ maxUploadSize))
    ∧ ((handleFileSelect st (some f)).selectedUploadFile = some f
        ∨ (handleFileSelect st (some f)).selectedUploadFile = none) := by
  unfold handleFileSelect
  by_cases hext : fileExtension f.name ∈ allowedExtensions
  · by_cases hsz : f.size ≤ maxUploadSize
    · simp [hext, hsz, Nat.not_lt.mpr hsz]
    · simp [hext, hsz, Nat.lt_of_not_le hsz]
  · simp [hext]

/-! ## UploadPage dirty check (isDirty) -/

/-- The slice of UploadPage state read by the isDirty memo. -/
structure UploadPageState where
  uploadAnalysisData : Option UploadAnalysisData := none
  analysisData : Option AnalysisData := none
  uploadMetadata : Option UploadMeta := none
  selectedUploadFile : Option JsFile := none
  submittedMetadata : Option UploadMeta := none
  submittedFileName : Option String := none
deriving DecidableEq, Repr

/-- `uploadAnalysisData && uploadAnalysisData.sessionId` (truthy). -/
def hasActiveAnalysis (st : UploadPageState) : Bool :=
  strTruthy (st.uploadAnalysisData.map (·.sessionId))

/-- `analysisData && analysisData.sourceType === "upload"`. -/
def isUploadWorkflowOf (ad : Option AnalysisData) : Bool :=
  match ad with
  | some a => decide (a.sourceType = some "upload")
  | none => false

/-- `(m?.field || "").trim()` on an optional metadata record. -/
def metaField (m : Option UploadMeta) (f : UploadMeta → Option String) : String :=
  jsTrim (optStr (m.bind f))

/-- `String(m?.year || "")`: undefined and 0 are falsy and coerce to
the empty string, a positive number to its decimal representation. -/
def yearStr : Option Nat → String
  | none => ""
  | some n => if n = 0 then "" else toString n

/-- The metadataMatches conjunction of isDirty: the three trimmed text
fields plus the stringified year, current form vs submitted snapshot. -/
def uploadMetadataMatches (st : UploadPageState) : Bool :=
  decide (metaField st.uploadMetadata (·.companyName)
            = metaField st.submittedMetadata (·.companyName))
  && decide (metaField st.uploadMetadata (·.docTitle)
            = metaField st.submittedMetadata (·.docTitle))
  && decide (metaField st.uploadMetadata (·.docType)
            = metaField st.submittedMetadata (·.docType))
  && decide (yearStr (st.uploadMetadata.bind (·.year))
            = yearStr (st.submittedMetadata.bind (·.year)))

/-- fileNameMatches: `(selectedUploadFile?.name || "") ===
(submittedFileName || "")`.  Only the name is compared. -/
def uploadFileNameMatches (st : UploadPageState) : Bool :=
  decide (optStr (st.selectedUploadFile.map (·.name)) = optStr st.submittedFileName)

/-- UploadPage.isDirty: false when there is no active upload analysis
or no submitted snapshot to compare against; otherwise the negation of
(metadataMatches and fileNameMatches). -/
def isDirty (st : UploadPageState) : Bool :=
  if !(hasActiveAnalysis st && isUploadWorkflowOf st.analysisData) then false
  else if st.submittedMetadata.isNone then false
  else !(uploadMetadataMatches st && uploadFileNameMatches st)

/-- A fixed metadata record for the C4 scenario. -/
def c4Meta : UploadMeta :=
  { companyName := some "Acme Corp", docTitle := some "Annual Report"
    docType := some "10-K", year := some 2024 }

/-- The file the session was created from (name plus size). -/
def c4SessionFile : JsFile := { name := "report.pdf", size := 1024 }

/-- A different candidate file: same name, different size. -/
def c4NewFile : JsFile := { name := "report.pdf", size := 2048 }

/-- The UploadPage state after creating a session from `c4SessionFile`
and then selecting `c4NewFile` with the form fields unchanged. -/
def c4State : UploadPageState :=
  { uploadAnalysisData := some
      { sessionId := "sess-1", submittedMetadata := some c4Meta
        submittedFileName := some "report.pdf" }
    analysisData := some
      { sessionId := "sess-1", executiveSummary := "", newsArticles := []
        chatMessages := [], sourceType := some "upload" }
    uploadMetadata := some c4Meta
    selectedUploadFile := some c4NewFile
    submittedMetadata := some c4Meta
    submittedFileName := some "report.pdf" }

/-- C4 counterexample: the pending upload selection differs from the
active sessions origin file in size alone (same name, 2048 vs 1024
bytes), yet isDirty is false — the dirty check never consults the file
size, so a size-only change does not make the form dirty, contrary to
the claim. -/
theorem upload_dirty_ignores_size_counterexample :
    c4NewFile.name = c4SessionFile.name
    ∧ c4NewFile.size ≠ c4SessionFile.size
    ∧ isDirty c4State = false := by
  refine ⟨rfl, by decide, ?_⟩
  decide

/-- C4 amended: the dirty check compares exactly the four metadata
fields (trimmed, year stringified) and the file NAME; the file size is
not part of the comparison, so replacing the selected file by one with
the same name and any other size never changes isDirty, and under an
active upload analysis with a submitted snapshot the form is clean
exactly when the metadata fields and the file name match. -/
theorem upload_dirty_compares_metadata_and_name (st : UploadPageState)
    (f g : JsFile) (hname : f.name = g.name)
    (hactive : (hasActiveAnalysis st && isUploadWorkflowOf st.analysisData) = true)
    (hsub : st.submittedMetadata.isSome = true) :
    isDirty { st with selectedUploadFile := some f }
      = isDirty { st with selectedUploadFile := some g }
    ∧ (isDirty st = false
        ↔ (uploadMetadataMatches st = true ∧ uploadFileNameMatches st = true)) := by
  constructor
  · simp [isDirty, hasActiveAnalysis, isUploadWorkflowOf, uploadMetadataMatches,
      uploadFileNameMatches, metaField, optStr, hname]
  · obtain ⟨m, hm⟩ := Option.isSome_iff_exists.mp hsub
    unfold isDirty
    rw [hactive]
    simp [hm]

/-- C4 amended, witness: the amended theorem applied to the concrete
C4 scenario state. -/
theorem upload_dirty_compares_metadata_and_name_witness :
    isDirty { c4State with selectedUploadFile := some c4SessionFile }
      = isDirty { c4State with selectedUploadFile := some c4NewFile }
    ∧ (isDirty c4State = false
        ↔ (uploadMetadataMatches c4State = true ∧ uploadFileNameMatches c4State = true)) :=
  upload_dirty_compares_metadata_and_name c4State c4SessionFile c4NewFile
    rfl (by rfl) (by rfl)

/-! ## AnalysisPage chat send (handleSendMessage) -/

/-- The Gateway chat response `{ assistantResponse, references }`. -/
structure ChatReply where
  assistantResponse : String
  references : Option String := none
deriving DecidableEq, Repr

/-- The slice of AnalysisPage state touched by handleSendMessage. -/
structure ChatState where
  chatMessages : List ChatMessage := []
  userInput : String := ""
  sendingMessage : Bool := false
  sessionId : Option String := none
  analysisData : Option AnalysisData := none
deriving DecidableEq, Repr

/-- handleSendMessage up to the suspension point of the chat fetch:
guard `!userInput.trim() || !sessionId || sendingMessage`, then clear
the input, append the user message optimistically and raise the
in-flight flag.  Returns the appended message, none when guarded. -/
def handleSendMessageStart (st : ChatState) (now : String) : ChatState × Option ChatMessage :=
  if (jsTrim st.userInput).isEmpty || !(strTruthy st.sessionId) || st.sendingMessage then
    (st, none)
  else
    let m : ChatMessage := { role := .user, content := jsTrim st.userInput, timestamp := now }
    ({ st with userInput := ""
               chatMessages := st.chatMessages ++ [m]
               sendingMessage := true }, some m)

/-- The continuation of handleSendMessage after the chat call settles:
on success append the assistant reply and mirror the transcript into
analysisData; on failure append a synthetic assistant entry carrying
the error; either way drop the in-flight flag.  The user message is
never removed. -/
def handleSendMessageComplete (st : ChatState) (result : Except String ChatReply)
    (now : String) : ChatState :=
  match result with
  | .ok data =>
    let m : ChatMessage := { role := .assistant, content := data.assistantResponse
                             references := some (optStr data.references), timestamp := now }
    let updated := st.chatMessages ++ [m]
    { st with chatMessages := updated
              analysisData := st.analysisData.map (fun d => { d with chatMessages := updated })
              sendingMessage := false }
  | .error e =>
    let m : ChatMessage := { role := .assistant, content := "Error: " ++ e
                             isError := true, timestamp := now }
    { st with chatMessages := st.chatMessages ++ [m], sendingMessage := false }

/-- C2: for a chat send within an active session (non-empty trimmed
input, truthy sessionId, no send in flight), the user message is
appended to the transcript already at the suspension point, before the
backend round trip completes; and when the chat call fails, a
synthetic assistant message carrying the error is appended right after
it, so the transcript is the old one followed by [userMsg, errorMsg]
and the user message is never removed. -/
theorem chat_failed_send_keeps_user_message (st : ChatState) (now1 now2 e : String)
    (h1 : (jsTrim st.userInput).isEmpty = false)
    (h2 : strTruthy st.sessionId = true)
    (h3 : st.sendingMessage = false) :
    (handleSendMessageStart st now1).1.chatMessages
      = st.chatMessages
          ++ [{ role := .user, content := jsTrim st.userInput, timestamp := now1 }]
    ∧ (handleSendMessageComplete (handleSendMessageStart st now1).1 (.error e) now2).chatMessages
      = st.chatMessages
          ++ [{ role := .user, content := jsTrim st.userInput, timestamp := now1 },
              { role := .assistant, content := "Error: " ++ e, isError := true,
                timestamp := now2 }] := by
  simp [handleSendMessageStart, handleSendMessageComplete, h1, h2, h3]

/-- C2 witness: the theorem applied to a concrete active-session state
with input " what changed? " and a failing chat call. -/
theorem chat_failed_send_keeps_user_message_witness :
    (handleSendMessageStart
        { userInput := " what changed? ", sessionId := some "sess-9" } "t1").1.chatMessages
      = [{ role := .user, content := jsTrim " what changed? ", timestamp := "t1" }]
    ∧ (handleSendMessageComplete
        (handleSendMessageStart
          { userInput := " what changed? ", sessionId := some "sess-9" } "t1").1
        (.error "HTTP error! status: 500") "t2").chatMessages
      = [{ role := .user, content := jsTrim " what changed? ", timestamp := "t1" },
         { role := .assistant, content := "Error: " ++ "HTTP error! status: 500",
           isError := true, timestamp := "t2" }] :=
  chat_failed_send_keeps_user_message
    { userInput := " what changed? ", sessionId := some "sess-9" }
    "t1" "t2" "HTTP error! status: 500" (by decide) (by decide) rfl

/-! ## WorkflowContext provider: state, setter wrapper, persistence -/

/-- The provider state relevant to sessions (WorkflowProvider). -/
structure ProviderState where
  secWorkflowData : Option SecWorkflowData := none
  analysisData : Option AnalysisData := none
  selectionMetadata : Option SelectionMeta := none
  uploadMetadata : Option UploadMeta := none
  uploadAnalysisData : Option UploadAnalysisData := none
deriving DecidableEq, Repr

/-- The projection `{ ticker, company_name, selected_filing }` that
updateSecWorkflowData derives from the workflow data. -/
def projSelectionMeta (d : SecWorkflowData) : SelectionMeta :=
  { ticker := d.ticker, company_name := d.company_name
    selected_filing := d.selected_filing }

/-- updateSecWorkflowData, the wrapper exposed to consumers as
setSecWorkflowData: sets the workflow data and keeps selectionMetadata
as its projection (null propagates to null). -/
def updateSecWorkflowData (st : ProviderState) (data : Option SecWorkflowData) : ProviderState :=
  match data with
  | some d => { st with secWorkflowData := some d
                        selectionMetadata := some (projSelectionMeta d) }
  | none => { st with secWorkflowData := none, selectionMetadata := none }

/-- clearActiveSession as written: it issues setAnalysisData(null) and
setSelectionMetadata(null), then evaluates the identifier
setSecWorkflowData — which has no binding inside WorkflowProvider (the
wrapper is named updateSecWorkflowData and the raw setter
setSecWorkflowDataState) — so the call raises ReferenceError and the
trailing localStorage.removeItem is never reached.  The two setter
calls already issued still take effect.  The Bool records that the
call threw. -/
def clearActiveSession (st : ProviderState) : ProviderState × Bool :=
  ({ st with analysisData := none, selectionMetadata := none }, true)

/-- The invariant claimed for the SEC setter: selectionMetadata is
exactly the projection of secWorkflowData (in particular each is null
exactly when the other is). -/
def secMetaInvariant (st : ProviderState) : Prop :=
  st.selectionMetadata = st.secWorkflowData.map projSelectionMeta

/-- updateSecWorkflowData itself does preserve the projection
invariant, for any prior state and any argument. -/
theorem updateSecWorkflowData_keeps_invariant (st : ProviderState)
    (data : Option SecWorkflowData) :
    secMetaInvariant (updateSecWorkflowData st data) := by
  cases data <;> simp [updateSecWorkflowData, secMetaInvariant]

/-- A concrete SEC workflow record for the C8 failing input. -/
def c8Wd : SecWorkflowData :=
  { ticker := "ACME", company_name := "Acme Corp"
    selected_filing := some { accession_number := "0001-23", form_type := "10-K"
                              filing_date := "2024-02-01" } }

/-- C8: calling clearActiveSession while an SEC session is active
breaks the claimed invariant: the body references the unbound
identifier setSecWorkflowData and throws ReferenceError after nulling
selectionMetadata, leaving secWorkflowData non-null — afterwards
selectionMetadata is null while the workflow data is not, so the two
refer to different selections, contrary to the claim the code
intends to satisfy. -/
theorem clearActiveSession_breaks_invariant :
    secMetaInvariant (updateSecWorkflowData {} (some c8Wd))
    ∧ (clearActiveSession (updateSecWorkflowData {} (some c8Wd))).2 = true
    ∧ (clearActiveSession (updateSecWorkflowData {} (some c8Wd))).1.secWorkflowData
        = some c8Wd
    ∧ (clearActiveSession (updateSecWorkflowData {} (some c8Wd))).1.selectionMetadata
        = none
    ∧ ¬ secMetaInvariant (clearActiveSession (updateSecWorkflowData {} (some c8Wd))).1 := by
  refine ⟨rfl, rfl, rfl, rfl, ?_⟩
  simp [secMetaInvariant, clearActiveSession, updateSecWorkflowData]

/-! ## WorkflowContext provider: localStorage loads (corruption tolerance) -/

/-- Raw content found under a localStorage key: either well-formed
JSON for a value of type α, or malformed text. -/
inductive RawStored (α : Type) where
  | valid : α → RawStored α
  | malformed : RawStored α
deriving DecidableEq

/-- JSON.parse: yields the value on well-formed input and throws a
SyntaxError on malformed input. -/
def jsonParse {α : Type} : RawStored α → Except String α
  | .valid v => .ok v
  | .malformed => .error "SyntaxError"

/-- The useState initializer for uploadMetadata:
`stored ? JSON.parse(stored) : null` inside try/catch; the catch logs
and returns null. -/
def loadUploadMetaInit (stored : Option (RawStored UploadMeta)) : Option UploadMeta :=
  match stored with
  | none => none
  | some raw =>
    match jsonParse raw with
    | .ok v => some v
    | .error _ => none

/-- The useState initializer for uploadAnalysisData, same shape. -/
def loadUploadDataInit (stored : Option (RawStored UploadAnalysisData)) :
    Option UploadAnalysisData :=
  match stored with
  | none => none
  | some raw =>
    match jsonParse raw with
    | .ok v => some v
    | .error _ => none

/-- The active-session record persisted under finscope_active_session:
`{ analysisData, selectionMetadata, secWorkflowData, timestamp }`. -/
structure StoredSessionRecord where
  analysisData : Option AnalysisData := none
  selectionMetadata : Option SelectionMeta := none
  secWorkflowData : Option SecWorkflowData := none
  timestamp : String := ""
deriving DecidableEq, Repr

/-- The mount effect that loads finscope_active_session: with no
stored value it does nothing; a parse failure is caught (logged only)
and does nothing; on success each non-null field is applied.  The
secWorkflowData branch calls the unbound identifier setSecWorkflowData
and raises ReferenceError, swallowed by the same catch, so
secWorkflowData is never restored; the first two setters have already
been issued and stick. -/
def loadActiveSessionEffect (st : ProviderState)
    (stored : Option (RawStored StoredSessionRecord)) : ProviderState :=
  match stored with
  | none => st
  | some raw =>
    match jsonParse raw with
    | .error _ => st
    | .ok parsed =>
      let st1 := if parsed.analysisData.isSome
                 then { st with analysisData := parsed.analysisData } else st
      if parsed.selectionMetadata.isSome
      then { st1 with selectionMetadata := parsed.selectionMetadata } else st1

/-- C7: every load from the persistent store treats malformed content
exactly like an absent value: the two upload initializers return null
and the active-session effect leaves the state untouched, in each case
identically to the no-value-stored case, and none of them propagates
the parse error (the catch swallows it, so nothing is thrown to
callers or surfaced to the user). -/
theorem corrupt_store_reads_as_empty (st : ProviderState) :
    loadActiveSessionEffect st (some .malformed) = loadActiveSessionEffect st none
    ∧ loadActiveSessionEffect st none = st
    ∧ loadUploadMetaInit (some .malformed) = loadUploadMetaInit none
    ∧ loadUploadMetaInit (none : Option (RawStored UploadMeta)) = none
    ∧ loadUploadDataInit (some .malformed) = loadUploadDataInit none
    ∧ loadUploadDataInit (none : Option (RawStored UploadAnalysisData)) = none :=
  ⟨rfl, rfl, rfl, rfl, rfl, rfl⟩

/-! ## WorkflowContext provider: persistence effect -/

/-- The localStorage keys the provider owns, with parsed values. -/
structure StoreState where
  activeSession : Option StoredSessionRecord := none
  uploadMetaKey : Option UploadMeta := none
  uploadDataKey : Option UploadAnalysisData := none
deriving DecidableEq, Repr

/-- The sessionData object built by the persistence effect: one record
bundling all three fields plus a timestamp, written in one setItem. -/
def sessionDataRecord (st : ProviderState) (now : String) : StoredSessionRecord :=
  { analysisData := st.analysisData
    selectionMetadata := st.selectionMetadata
    secWorkflowData := st.secWorkflowData
    timestamp := now }

/-- The useEffect that persists the active session whenever
analysisData, selectionMetadata or secWorkflowData changes: when any
of the three is non-null, one setItem writes the single sessionData
record; when all are null the key is removed. -/
def persistActiveSessionEffect (st : ProviderState) (now : String)
    (store : StoreState) : StoreState :=
  if st.analysisData.isSome || st.selectionMetadata.isSome || st.secWorkflowData.isSome then
    { store with activeSession := some (sessionDataRecord st now) }
  else
    { store with activeSession := none }

/-- C9: after the persistence effect runs, the active-session record
exists exactly when at least one of analysisData, selectionMetadata,
secWorkflowData is non-null; when all three are null it is removed,
and otherwise it is rewritten in one write as a single record carrying
all three fields. -/
theorem persisted_record_iff_some_data (st : ProviderState) (now : String)
    (store : StoreState) :
    ((persistActiveSessionEffect st now store).activeSession.isSome
      ↔ (st.analysisData.isSome ∨ st.selectionMetadata.isSome ∨ st.secWorkflowData.isSome))
    ∧ (persistActiveSessionEffect st now store).activeSession
      = (if st.analysisData.isSome || st.selectionMetadata.isSome
            || st.secWorkflowData.isSome
         then some (sessionDataRecord st now)
         else none) := by
  unfold persistActiveSessionEffect
  by_cases h : (st.analysisData.isSome || st.selectionMetadata.isSome
      || st.secWorkflowData.isSome) = true
  · simp only [h, if_true]
    simp only [Bool.or_eq_true] at h
    simp [or_assoc.mp h]
  · simp only [h, if_false]
    simp only [Bool.or_eq_true, not_or, Bool.not_eq_true] at h
    obtain ⟨⟨ha, hs⟩, hw⟩ := h
    simp [ha, hs, hw]

/-! ## SECSearchPage: status derivation -/

/-- SECSearchPage.hasAnalysisForCurrentSelection: false when
analysisData, selectionMetadata or selectedFiling is null; otherwise
compare the selected ticker with the stored ticker and the selected
accession number with the stored one — and nothing else. -/
def hasAnalysisForCurrentSelection (analysisData : Option AnalysisData)
    (selectionMetadata : Option SelectionMeta) (selectedCompany : Option Company)
    (selectedFiling : Option Filing) : Bool :=
  match analysisData, selectionMetadata, selectedFiling with
  | some _, some meta, some filing =>
    decide (selectedCompany.map (·.ticker) = some meta.ticker)
    && decide (some filing.accession_number
                = meta.selected_filing.map (·.accession_number))
  | _, _, _ => false

/-- SECSearchPage.handleStartAnalysis conflict test: with an active
analysis and stored metadata, a conflict is raised exactly when the
stored ticker or the stored accession number differs from the current
ones. -/
def secConflictDetected (analysisData : Option AnalysisData)
    (selectionMetadata : Option SelectionMeta)
    (currentTicker currentFilingId : String) : Bool :=
  match analysisData, selectionMetadata with
  | some _, some meta =>
    !(decide (meta.ticker = currentTicker))
    || !(decide (meta.selected_filing.map (·.accession_number) = some currentFilingId))
  | _, _ => false

/-- AnalysisPage smart reproduction: resume from cache exactly when
analysisData.sessionId is truthy and the stored ticker and accession
number equal the current workflow selection. -/
def secSmartResumeHit (analysisData : Option AnalysisData)
    (selectionMetadata : Option SelectionMeta)
    (ticker : String) (selected_filing : Filing) : Bool :=
  match analysisData, selectionMetadata with
  | some a, some meta =>
    strTruthy (some a.sessionId)
    && decide (meta.ticker = ticker)
    && decide (some selected_filing.accession_number
                = meta.selected_filing.map (·.accession_number))
  | _, _ => false

/-- C3: with an active SEC session (analysisData and stored selection
metadata present) and a pending selection (company and filing chosen),
the resume-not-create status holds exactly when the pending ticker and
accession number both equal the stored ones — companyName, formType
and filingDate never enter the comparison (they are universally
quantified here); if either identity field differs the conflict path
is taken instead, and the AnalysisPage cached-resume test uses the
same two identity fields (plus a truthy sessionId). -/
theorem sec_status_identity_fields (ad : AnalysisData) (meta : SelectionMeta)
    (c : Company) (f sf : Filing) (t : String)
    (hsf : meta.selected_filing = some sf) :
    (hasAnalysisForCurrentSelection (some ad) (some meta) (some c) (some f) = true
      ↔ (c.ticker = meta.ticker ∧ f.accession_number = sf.accession_number))
    ∧ (secConflictDetected (some ad) (some meta) c.ticker f.accession_number = true
      ↔ ¬(meta.ticker = c.ticker ∧ sf.accession_number = f.accession_number))
    ∧ (secSmartResumeHit (some ad) (some meta) t f = true
      ↔ (ad.sessionId ≠ "" ∧ meta.ticker = t
          ∧ f.accession_number = sf.accession_number)) := by
  refine ⟨?_, ?_, ?_⟩
  · simp [hasAnalysisForCurrentSelection, hsf]
  · simp [secConflictDetected, hsf]
    tauto
  · simp [secSmartResumeHit, strTruthy, hsf, and_assoc]
    intro _ _
    exact Bool.eq_false_iff.trans (not_congr (String.isEmpty_iff ad.sessionId))

/-- C3 witness: the theorem at a concrete session whose origin is
ACME filing 0001-23 and a pending selection for the same ticker and
accession number but a different formType and filingDate. -/
theorem sec_status_identity_fields_witness :
    ({ ticker := "ACME", company_name := "Acme Corp"
       selected_filing := some { accession_number := "0001-23", form_type := "10-K"
                                 filing_date := "2024-02-01" } } : SelectionMeta).selected_filing
      = some { accession_number := "0001-23", form_type := "10-K"
               filing_date := "2024-02-01" }
    ∧ (hasAnalysisForCurrentSelection
        (some { sessionId := "sess-1", executiveSummary := "", newsArticles := []
                chatMessages := [] })
        (some { ticker := "ACME", company_name := "Acme Corp"
                selected_filing := some { accession_number := "0001-23", form_type := "10-K"
                                          filing_date := "2024-02-01" } })
        (some { ticker := "ACME", company_name := "ACME Incorporated" })
        (some { accession_number := "0001-23", form_type := "10-K/A"
                filing_date := "2024-03-15" }) = true
      ↔ (("ACME" : String) = "ACME" ∧ ("0001-23" : String) = "0001-23")) :=
  ⟨rfl, (sec_status_identity_fields
      { sessionId := "sess-1", executiveSummary := "", newsArticles := []
        chatMessages := [] }
      { ticker := "ACME", company_name := "Acme Corp"
        selected_filing := some { accession_number := "0001-23", form_type := "10-K"
                                  filing_date := "2024-02-01" } }
      { ticker := "ACME", company_name := "ACME Incorporated" }
      { accession_number := "0001-23", form_type := "10-K/A", filing_date := "2024-03-15" }
      { accession_number := "0001-23", form_type := "10-K", filing_date := "2024-02-01" }
      "ACME" rfl).1⟩

/-! ## SECSearchPage: replace flow (proceedWithNewAnalysis) -/

/-- The outcome of the awaited end-session call. -/
inductive EndCallResult where
  | ok
  | httpError
  | networkError
deriving DecidableEq, Repr

/-- SECSearchPage state for the replace flow. -/
structure SecPageState where
  selectedCompany : Option Company := none
  selectedFiling : Option Filing := none
  ctx : ProviderState := {}
  store : StoreState := {}
deriving DecidableEq, Repr

/-- Result of running proceedWithNewAnalysis: the next state, whether
an end-session call was issued, and whether the handler navigated on
to the analysis page (where the create call is fired). -/
structure SecReplaceResult where
  st : SecPageState
  endCallIssued : Bool
  navigated : Bool
deriving DecidableEq, Repr

/-- SECSearchPage.proceedWithNewAnalysis: guard on a selected company
and filing; end the old session when analysisData?.sessionId is
truthy, but both failure branches of that call only log and fall
through (the comment reads: Continue anyway - do not block the user),
so `endResult` never influences what follows: the old analysisData and
workflow data are cleared, the finscope_active_session key is removed,
the new selection is committed as workflow data (which also updates
selectionMetadata), and the handler navigates to the analysis page. -/
def proceedWithNewAnalysis (st : SecPageState) (endResult : EndCallResult) :
    SecReplaceResult :=
  match st.selectedCompany, st.selectedFiling with
  | some company, some filing =>
    let _ := endResult
    let endIssued := strTruthy (st.ctx.analysisData.map (·.sessionId))
    let ctx1 := { st.ctx with analysisData := none }
    let ctx2 := updateSecWorkflowData ctx1 none
    let store1 := { st.store with activeSession := none }
    let wd : SecWorkflowData :=
      { ticker := company.ticker, company_name := company.company_name
        selected_filing := some filing }
    let ctx3 := updateSecWorkflowData ctx2 (some wd)
    { st := { st with ctx := ctx3, store := store1 }
      endCallIssued := endIssued, navigated := true }
  | _, _ => { st := st, endCallIssued := false, navigated := false }

/-- The analysisData of the old active session in the C1 scenario. -/
def c1OldAnalysis : AnalysisData :=
  { sessionId := "sess-old", executiveSummary := "s"
    newsArticles := [], chatMessages := [] }

/-- The persisted record of the old active session in the C1 scenario. -/
def c1OldRecord : StoredSessionRecord :=
  { analysisData := some c1OldAnalysis
    selectionMetadata := some (projSelectionMeta c8Wd)
    secWorkflowData := some c8Wd, timestamp := "t0" }

/-- The C1 counterexample scenario: an active session sess-old for
ACME filing 0001-23, with a new filing 0002-24 selected. -/
def c1State : SecPageState :=
  { selectedCompany := some { ticker := "ACME", company_name := "Acme Corp" }
    selectedFiling := some { accession_number := "0002-24", form_type := "10-Q"
                             filing_date := "2024-05-01" }
    ctx := { secWorkflowData := some c8Wd
             analysisData := some c1OldAnalysis
             selectionMetadata := some (projSelectionMeta c8Wd) }
    store := { activeSession := some c1OldRecord } }

/-- C1 counterexample: the end-session call fails (HTTP error), yet
the replace is not aborted — the in-memory session record and the
persisted store record are both cleared and the handler proceeds
(navigates) to create the new session, contrary to the claim that the
store is never cleared and no create is issued unless the end call
succeeded. -/
theorem replace_proceeds_after_failed_end_counterexample :
    c1State.ctx.analysisData.isSome = true
    ∧ c1State.store.activeSession.isSome = true
    ∧ (proceedWithNewAnalysis c1State .httpError).endCallIssued = true
    ∧ (proceedWithNewAnalysis c1State .httpError).st.ctx.analysisData = none
    ∧ (proceedWithNewAnalysis c1State .httpError).st.store.activeSession = none
    ∧ (proceedWithNewAnalysis c1State .httpError).st.ctx.secWorkflowData
        = some { ticker := "ACME", company_name := "Acme Corp"
                 selected_filing := some { accession_number := "0002-24"
                                           form_type := "10-Q"
                                           filing_date := "2024-05-01" } }
    ∧ (proceedWithNewAnalysis c1State .httpError).navigated = true := by
  refine ⟨rfl, rfl, by decide, rfl, rfl, rfl, rfl⟩

/-! ## UploadPage: start and replace flows -/

/-- UploadPage state for the start/replace flow. -/
structure UploadFlowState where
  selectedUploadFile : Option JsFile := none
  uploadMetadata : Option UploadMeta := none
  uploadAnalysisData : Option UploadAnalysisData := none
  analysisData : Option AnalysisData := none
  isLoading : Bool := false
deriving DecidableEq, Repr

/-- UploadPage.handleStartAnalysis reaches its Gateway create call
(the upload-analysis POST) exactly when a file is selected and the
trimmed company name is non-empty.  The function never consults the
isLoading flag: there is no in-flight latch. -/
def startAnalysisFires (st : UploadFlowState) : Bool :=
  match st.selectedUploadFile with
  | none => false
  | some _ => !(jsTrim (optStr (st.uploadMetadata.bind (·.companyName)))).isEmpty

/-- One invocation of handleStartAnalysis up to its create call: when
the validations pass it sets isLoading and fires one create call,
otherwise it fires none and only reports the validation error. -/
def handleStartAnalysisStep (st : UploadFlowState) : UploadFlowState × Nat :=
  if startAnalysisFires st then ({ st with isLoading := true }, 1) else (st, 0)

/-- Two back-to-back invocations of handleStartAnalysis (a double
click, the second arriving while the first create call is in flight):
the total number of Gateway create calls fired. -/
def duplicateStartCalls (st : UploadFlowState) : Nat :=
  (handleStartAnalysisStep st).2 + (handleStartAnalysisStep (handleStartAnalysisStep st).1).2

/-- UploadPage.handleProceedWithNew: clears uploadAnalysisData, the
selected file, the finscope_upload_data key, the submitted snapshot
and (if it came from the upload workflow) analysisData — with no
end-session call whatsoever — then invokes handleStartAnalysis, whose
closure still sees the pre-clear selectedUploadFile and uploadMetadata
values.  Returns (state, end-session calls, create calls). -/
def handleProceedWithNew (st : UploadFlowState) (store : StoreState) :
    (UploadFlowState × StoreState) × Nat × Nat :=
  let cleared : UploadFlowState :=
    { st with uploadAnalysisData := none
              selectedUploadFile := none
              analysisData := if isUploadWorkflowOf st.analysisData
                              then none else st.analysisData }
  let store1 : StoreState := { store with uploadDataKey := none }
  let creates := if startAnalysisFires st then 1 else 0
  ((if startAnalysisFires st then { cleared with isLoading := true } else cleared,
    store1), 0, creates)

/-- C1 amended: the replace flow never aborts on a failed end call.
In the SEC flow, proceedWithNewAnalysis issues the end-session call
exactly when the active analysisData has a truthy sessionId, but its
outcome is identical for every end result — success, HTTP error or
network error alike: the store record is cleared, the new selection is
committed, and the handler navigates on to create the new session.
The upload replace flow issues no end-session call at all. -/
theorem replace_ignores_end_result (st : SecPageState) (c : Company) (f : Filing)
    (r rOther : EndCallResult) (ust : UploadFlowState) (ustore : StoreState)
    (hc : st.selectedCompany = some c) (hf : st.selectedFiling = some f) :
    proceedWithNewAnalysis st r = proceedWithNewAnalysis st rOther
    ∧ (proceedWithNewAnalysis st r).endCallIssued
        = strTruthy (st.ctx.analysisData.map (·.sessionId))
    ∧ (proceedWithNewAnalysis st r).st.store.activeSession = none
    ∧ (proceedWithNewAnalysis st r).st.ctx.analysisData = none
    ∧ (proceedWithNewAnalysis st r).st.ctx.secWorkflowData
        = some { ticker := c.ticker, company_name := c.company_name
                 selected_filing := some f }
    ∧ (proceedWithNewAnalysis st r).navigated = true
    ∧ (handleProceedWithNew ust ustore).2.1 = 0 := by
  refine ⟨?_, ?_, ?_, ?_, ?_, ?_, rfl⟩ <;>
    simp [proceedWithNewAnalysis, hc, hf, updateSecWorkflowData]

/-- C1 amended, witness: the amended theorem at the concrete C1
scenario with a failing end call. -/
theorem replace_ignores_end_result_witness :
    proceedWithNewAnalysis c1State .httpError = proceedWithNewAnalysis c1State .ok
    ∧ (proceedWithNewAnalysis c1State .httpError).endCallIssued
        = strTruthy (c1State.ctx.analysisData.map (·.sessionId))
    ∧ (proceedWithNewAnalysis c1State .httpError).st.store.activeSession = none
    ∧ (proceedWithNewAnalysis c1State .httpError).st.ctx.analysisData = none
    ∧ (proceedWithNewAnalysis c1State .httpError).st.ctx.secWorkflowData
        = some { ticker := "ACME", company_name := "Acme Corp"
                 selected_filing := some { accession_number := "0002-24"
                                           form_type := "10-Q"
                                           filing_date := "2024-05-01" } }
    ∧ (proceedWithNewAnalysis c1State .httpError).navigated = true
    ∧ (handleProceedWithNew {} {}).2.1 = 0 :=
  replace_ignores_end_result c1State
    { ticker := "ACME", company_name := "Acme Corp" }
    { accession_number := "0002-24", form_type := "10-Q", filing_date := "2024-05-01" }
    .httpError .ok {} {} rfl rfl

/-- A valid upload-start state for the C5 counterexample: a selected
file and a non-blank company name, with no create in flight yet. -/
def c5State : UploadFlowState :=
  { selectedUploadFile := some { name := "report.pdf", size := 2048 }
    uploadMetadata := some { companyName := some "Acme Corp" } }

/-- C5 counterexample: handleStartAnalysis has no in-flight guard, so
invoking it twice in rapid succession — the second time while the
first create call is in flight (isLoading already raised) — fires two
Gateway create calls, not the exactly one the claim requires. -/
theorem duplicate_create_fires_twice_counterexample :
    startAnalysisFires c5State = true
    ∧ (handleStartAnalysisStep c5State).1.isLoading = true
    ∧ duplicateStartCalls c5State = 2 := by
  refine ⟨by decide, ?_, by decide⟩
  decide

/-- C5 amended: there is no in-flight latch on the session-mutating
operations — every rapid duplicate invocation of createSession while
one create is in flight fires its own Gateway create call (a double
invocation fires two); among the mutating operations only the chat
send is guarded, by the sendingMessage flag, under which a duplicate
send is ignored entirely. -/
theorem no_inflight_latch_for_create (st : UploadFlowState) (cst : ChatState)
    (now : String) (hv : startAnalysisFires st = true)
    (hs : cst.sendingMessage = true) :
    duplicateStartCalls st = 2
    ∧ handleSendMessageStart cst now = (cst, none) := by
  constructor
  · have hcount : ∀ s : UploadFlowState,
        (handleStartAnalysisStep s).2 = if startAnalysisFires s then 1 else 0 := by
      intro s
      unfold handleStartAnalysisStep
      split <;> rfl
    have hpres : startAnalysisFires (handleStartAnalysisStep st).1 = startAnalysisFires st := by
      unfold handleStartAnalysisStep
      split <;> rfl
    unfold duplicateStartCalls
    rw [hcount, hcount, hpres, hv]
    rfl
  · simp [handleSendMessageStart, hs]

/-- C5 amended, witness: the amended theorem at the concrete valid
upload state and an in-flight chat state. -/
theorem no_inflight_latch_for_create_witness :
    duplicateStartCalls c5State = 2
    ∧ handleSendMessageStart { sendingMessage := true } "t1"
        = ({ sendingMessage := true }, none) :=
  no_inflight_latch_for_create c5State { sendingMessage := true } "t1"
    (by decide) rfl

/-! ## AnalysisPage: explicit end session (handleEndSessionConfirm) -/

/-- The full outcome of handleEndSessionConfirm: provider state, store
state, dialog flags, whether the handler navigated home, and an alert
text when the failure was surfaced. -/
structure EndSessionOutcome where
  ctx : ProviderState
  store : StoreState
  endingSession : Bool
  showEndSessionDialog : Bool
  navigatedHome : Bool
  alertShown : Option String := none
deriving DecidableEq, Repr

/-- AnalysisPage.handleEndSessionConfirm: guard on a truthy sessionId;
await the end-session call.  On success: for an upload workflow also
clear uploadAnalysisData, uploadMetadata and the two upload keys; then
clear the workflow data through the context setter (which also nulls
selectionMetadata), clear analysisData and remove the
finscope_active_session key, and navigate home.  On failure: alert the
error, drop the in-flight flag and close the dialog — no state is
cleared and no store key is removed. -/
def handleEndSessionConfirm (ctx : ProviderState) (store : StoreState)
    (sessionId : Option String) (result : Except String Unit) : EndSessionOutcome :=
  if !(strTruthy sessionId) then
    { ctx := ctx, store := store, endingSession := false
      showEndSessionDialog := true, navigatedHome := false }
  else
    match result with
    | .ok _ =>
      let isUpload := isUploadWorkflowOf ctx.analysisData
      let ctx1 := if isUpload
                  then { ctx with uploadAnalysisData := none, uploadMetadata := none }
                  else ctx
      let store1 := if isUpload
                    then { store with uploadDataKey := none, uploadMetaKey := none }
                    else store
      let ctx2 := updateSecWorkflowData ctx1 none
      let ctx3 := { ctx2 with analysisData := none }
      let store2 := { store1 with activeSession := none }
      { ctx := ctx3, store := store2, endingSession := true
        showEndSessionDialog := true, navigatedHome := true }
    | .error e =>
      { ctx := ctx, store := store, endingSession := false
        showEndSessionDialog := false, navigatedHome := false
        alertShown := some ("Failed to end session: " ++ e) }

/-- C6: with a truthy sessionId, a successful explicit end clears the
session record and the workflow selection from the provider, removes
the persisted active-session record, clears the upload draft metadata
and its store keys exactly when the session was an upload-workflow
one, and navigates back to Empty; a failed end leaves the provider
state and every store key exactly as they were and surfaces the
failure to the user as an alert. -/
theorem end_session_clears_on_success_only (ctx : ProviderState) (store : StoreState)
    (sid : String) (e : String) (hsid : sid ≠ "") :
    ((handleEndSessionConfirm ctx store (some sid) (.ok ())).ctx.analysisData = none
      ∧ (handleEndSessionConfirm ctx store (some sid) (.ok ())).ctx.secWorkflowData = none
      ∧ (handleEndSessionConfirm ctx store (some sid) (.ok ())).ctx.selectionMetadata = none
      ∧ (handleEndSessionConfirm ctx store (some sid) (.ok ())).store.activeSession = none
      ∧ (handleEndSessionConfirm ctx store (some sid) (.ok ())).ctx.uploadMetadata
          = (if isUploadWorkflowOf ctx.analysisData then none else ctx.uploadMetadata)
      ∧ (handleEndSessionConfirm ctx store (some sid) (.ok ())).ctx.uploadAnalysisData
          = (if isUploadWorkflowOf ctx.analysisData then none else ctx.uploadAnalysisData)
      ∧ (handleEndSessionConfirm ctx store (some sid) (.ok ())).store.uploadMetaKey
          = (if isUploadWorkflowOf ctx.analysisData then none else store.uploadMetaKey)
      ∧ (handleEndSessionConfirm ctx store (some sid) (.ok ())).store.uploadDataKey
          = (if isUploadWorkflowOf ctx.analysisData then none else store.uploadDataKey)
      ∧ (handleEndSessionConfirm ctx store (some sid) (.ok ())).navigatedHome = true)
    ∧ ((handleEndSessionConfirm ctx store (some sid) (.error e)).ctx = ctx
      ∧ (handleEndSessionConfirm ctx store (some sid) (.error e)).store = store
      ∧ (handleEndSessionConfirm ctx store (some sid) (.error e)).alertShown
          = some ("Failed to end session: " ++ e)
      ∧ (handleEndSessionConfirm ctx store (some sid) (.error e)).navigatedHome = false) := by
  have ht : strTruthy (some sid) = true := by
    simp only [strTruthy, Bool.not_eq_true']
    exact Bool.eq_false_iff.mpr fun h => hsid ((String.isEmpty_iff sid).mp h)
  constructor
  · by_cases hu : isUploadWorkflowOf ctx.analysisData
    <;> simp [handleEndSessionConfirm, ht, hu, updateSecWorkflowData]
  · simp [handleEndSessionConfirm, ht]

/-- C6 witness: the theorem at a concrete SEC session sess-1 with a
concrete Gateway error text. -/
theorem end_session_clears_on_success_only_witness :
    ((handleEndSessionConfirm { secWorkflowData := some c8Wd
                                analysisData := some c1OldAnalysis
                                selectionMetadata := some (projSelectionMeta c8Wd) }
        { activeSession := some c1OldRecord } (some "sess-old") (.ok ())).ctx.analysisData = none
      ∧ (handleEndSessionConfirm { secWorkflowData := some c8Wd
                                   analysisData := some c1OldAnalysis
                                   selectionMetadata := some (projSelectionMeta c8Wd) }
          { activeSession := some c1OldRecord } (some "sess-old") (.ok ())).ctx.secWorkflowData = none
      ∧ (handleEndSessionConfirm { secWorkflowData := some c8Wd
                                   analysisData := some c1OldAnalysis
                                   selectionMetadata := some (projSelectionMeta c8Wd) }
          { activeSession := some c1OldRecord } (some "sess-old") (.ok ())).ctx.selectionMetadata = none
      ∧ (handleEndSessionConfirm { secWorkflowData := some c8Wd
                                   analysisData := some c1OldAnalysis
                                   selectionMetadata := some (projSelectionMeta c8Wd) }
          { activeSession := some c1OldRecord } (some "sess-old") (.ok ())).store.activeSession = none
      ∧ (handleEndSessionConfirm { secWorkflowData := some c8Wd
                                   analysisData := some c1OldAnalysis
                                   selectionMetadata := some (projSelectionMeta c8Wd) }
          { activeSession := some c1OldRecord } (some "sess-old") (.ok ())).ctx.uploadMetadata
          = (if isUploadWorkflowOf (some c1OldAnalysis) then none
             else ({ secWorkflowData := some c8Wd
                     analysisData := some c1OldAnalysis
                     selectionMetadata := some (projSelectionMeta c8Wd) } : ProviderState).uploadMetadata)
      ∧ (handleEndSessionConfirm { secWorkflowData := some c8Wd
                                   analysisData := some c1OldAnalysis
                                   selectionMetadata := some (projSelectionMeta c8Wd) }
          { activeSession := some c1OldRecord } (some "sess-old") (.ok ())).ctx.uploadAnalysisData
          = (if isUploadWorkflowOf (some c1OldAnalysis) then none
             else ({ secWorkflowData := some c8Wd
                     analysisData := some c1OldAnalysis
                     selectionMetadata := some (projSelectionMeta c8Wd) } : ProviderState).uploadAnalysisData)
      ∧ (handleEndSessionConfirm { secWorkflowData := some c8Wd
                                   analysisData := some c1OldAnalysis
                                   selectionMetadata := some (projSelectionMeta c8Wd) }
          { activeSession := some c1OldRecord } (some "sess-old") (.ok ())).store.uploadMetaKey
          = (if isUploadWorkflowOf (some c1OldAnalysis) then none
             else ({ activeSession := some c1OldRecord } : StoreState).uploadMetaKey)
      ∧ (handleEndSessionConfirm { secWorkflowData := some c8Wd
                                   analysisData := some c1OldAnalysis
                                   selectionMetadata := some (projSelectionMeta c8Wd) }
          { activeSession := some c1OldRecord } (some "sess-old") (.ok ())).store.uploadDataKey
          = (if isUploadWorkflowOf (some c1OldAnalysis) then none
             else ({ activeSession := some c1OldRecord } : StoreState).uploadDataKey)
      ∧ (handleEndSessionConfirm { secWorkflowData := some c8Wd
                                   analysisData := some c1OldAnalysis
                                   selectionMetadata := some (projSelectionMeta c8Wd) }
          { activeSession := some c1OldRecord } (some "sess-old") (.ok ())).navigatedHome = true)
    ∧ ((handleEndSessionConfirm { secWorkflowData := some c8Wd
                                  analysisData := some c1OldAnalysis
                                  selectionMetadata := some (projSelectionMeta c8Wd) }
          { activeSession := some c1OldRecord } (some "sess-old")
          (.error "HTTP error! status: 500")).ctx
        = { secWorkflowData := some c8Wd
            analysisData := some c1OldAnalysis
            selectionMetadata := some (projSelectionMeta c8Wd) }
      ∧ (handleEndSessionConfirm { secWorkflowData := some c8Wd
                                   analysisData := some c1OldAnalysis
                                   selectionMetadata := some (projSelectionMeta c8Wd) }
          { activeSession := some c1OldRecord } (some "sess-old")
          (.error "HTTP error! status: 500")).store
        = { activeSession := some c1OldRecord }
      ∧ (handleEndSessionConfirm { secWorkflowData := some c8Wd
                                   analysisData := some c1OldAnalysis
                                   selectionMetadata := some (projSelectionMeta c8Wd) }
          { activeSession := some c1OldRecord } (some "sess-old")
          (.error "HTTP error! status: 500")).alertShown
        = some ("Failed to end session: " ++ "HTTP error! status: 500")
      ∧ (handleEndSessionConfirm { secWorkflowData := some c8Wd
                                   analysisData := some c1OldAnalysis
                                   selectionMetadata := some (projSelectionMeta c8Wd) }
          { activeSession := some c1OldRecord } (some "sess-old")
          (.error "HTTP error! status: 500")).navigatedHome = false) :=
  end_session_clears_on_success_only
    { secWorkflowData := some c8Wd
      analysisData := some c1OldAnalysis
      selectionMetadata := some (projSelectionMeta c8Wd) }
    { activeSession := some c1OldRecord } "sess-old" "HTTP error! status: 500"
    (by decide)

end FinScope
